import Mathlib

/-!
Verification of the ontology-python-sdk key-management and transaction-encoding
subsystem.  Pure parts of the repository are embedded shallowly as Lean
functions; code of the repository whose source is not available (the `Account`
crypto routines, the address codec, the transaction serializer, the NeoVM
payload builder) is modelled from the design document, with each such
definition marked `Modelled from the spec:` in its doc comment.
-/

namespace OntSdk

/-! ## Byte and digit utilities -/

/-- Value of a little-endian digit list in base `b`. -/
def ofDigitsLE (b : Nat) : List Nat → Nat
  | [] => 0
  | d :: ds => d + b * ofDigitsLE b ds

/-- Fuel-driven base-`b` digit expansion (little-endian), so that it reduces
structurally in the kernel.  The result is the digit list of `n` whenever
`n < b ^ fuel`. -/
def toDigitsAux (b : Nat) : Nat → Nat → List Nat
  | 0, _ => []
  | fuel + 1, n => if n = 0 then [] else n % b :: toDigitsAux b fuel (n / b)

/-- Big-endian byte list to natural number. -/
def bytesToNat (bs : List Nat) : Nat := ofDigitsLE 256 bs.reverse

/-- Two-byte little-endian encoding. -/
def u16LE (n : Nat) : List Nat := [n % 256, n / 256 % 256]

/-- Four-byte little-endian encoding. -/
def u32LE (n : Nat) : List Nat := [n % 256, n / 256 % 256, n / 2 ^ 16 % 256, n / 2 ^ 24 % 256]

/-- Eight-byte little-endian encoding. -/
def u64LE (n : Nat) : List Nat := u32LE (n % 2 ^ 32) ++ u32LE (n / 2 ^ 32)

/-- Lowercase hexadecimal digit characters. -/
def hexDigitChars : List Char := "0123456789abcdef".toList

/-- Two lowercase hex characters of one byte. -/
def byteToHex (b : Nat) : List Char :=
  [hexDigitChars.getD (b / 16) ' ', hexDigitChars.getD (b % 16) ' ']

/-- Lowercase hex rendering of a byte list, as produced by Python `bytes.hex()`. -/
def bytesToHex (bs : List Nat) : List Char := bs.foldr (fun b acc => byteToHex b ++ acc) []

/-- ASCII bytes of a string (the repository only passes ASCII strings here). -/
def strBytes (s : String) : List Nat := s.toList.map Char.toNat

/-- Error conditions surfaced as `SDKException` in the repository; the spec
names them FormatError, AuthenticationError, InvalidSignatureGroupError etc. -/
inductive SdkError
  | authenticationFailed
  | requireStrParams
  | accountExists
  | invalidSignatureGroup
  | formatError
  deriving DecidableEq

/-! ## KeyProtector (claims C1, C2)

The `Account.export_gcm_encrypted_private_key` and
`Account.get_gcm_decoded_private_key` routines live in
`ontology/account/account.py`, which is not among the available sources; only
their callers in `ontology/wallet/wallet_manager.py` are.  They are modelled
from the spec (section 4.2), with scrypt and AES-256-GCM treated as the ideal
black boxes the spec assumes (section 1, non-goals). -/

/-- Modelled from the spec: the scrypt key-stretching output, treated as an
opaque value determined exactly by password, salt and the cost parameter `n`
(the black-box KDF contract of spec section 4.2). -/
structure ScryptDerivedKey where
  password : String
  salt : String
  n : Nat
  deriving DecidableEq

/-- Modelled from the spec: derive the symmetric key from password and salt via
the stretching function. -/
def scryptDerive (password salt : String) (n : Nat) : ScryptDerivedKey :=
  ⟨password, salt, n⟩

/-- Modelled from the spec: an AES-256-GCM sealed private key.  The
authentication tag is determined by the key, the associated data (the owning
address) and the ciphertext, which is the GCM tag contract. -/
structure GcmEncryptedKey where
  cipherPayload : String
  authTag : ScryptDerivedKey × String × String
  deriving DecidableEq

/-- Modelled from the spec: ideal authenticated encryption; the tag commits to
key, associated data and payload. -/
def gcmEncrypt (k : ScryptDerivedKey) (aad : String) (plain : String) : GcmEncryptedKey :=
  ⟨plain, (k, aad, plain)⟩

/-- Modelled from the spec: authenticated decryption; the tag check fails on a
wrong key, wrong associated data or tampered payload, and no plaintext is
released on failure. -/
def gcmDecrypt (k : ScryptDerivedKey) (aad : String) (enc : GcmEncryptedKey) :
    Except SdkError String :=
  if enc.authTag = (k, aad, enc.cipherPayload) then .ok enc.cipherPayload
  else .error .authenticationFailed

/-- Modelled from the spec: `Account.export_gcm_encrypted_private_key`, the
wrap operation of spec section 4.2 — stretch the password with the salt, then
seal the raw key binding the base58 address as associated data. -/
def export_gcm_encrypted_private_key (privateKey pwd salt : String) (n : Nat)
    (b58Address : String) : GcmEncryptedKey :=
  gcmEncrypt (scryptDerive pwd salt n) b58Address privateKey

/-- Modelled from the spec: `Account.get_gcm_decoded_private_key`, the unwrap
operation of spec section 4.2. -/
def get_gcm_decoded_private_key (encKey : GcmEncryptedKey) (pwd b58Address salt : String)
    (n : Nat) : Except SdkError String :=
  gcmDecrypt (scryptDerive pwd salt n) b58Address encKey

/-! ## AddressCodec (claim C3)

`ontology/common/address.py` is not among the available sources (only its test
`src/tests/test_address.py` and its callers are), so the codec is modelled
from the spec, sections 4.1 and 6: base-58 text of a 1-byte version prefix,
the 20-byte script hash, and a 4-byte trailing checksum.  Text is modelled as
`List Char`. -/

/-- Modelled from the spec: stand-in for the opaque double-SHA-256 digest that
yields the 4-byte checksum.  Only its determinism and its producing 4 bytes
matter for the codec theorems; the cryptographic hash itself is a black box
per spec section 1. -/
def hash256Checksum (bs : List Nat) : List Nat :=
  let d := bs.foldl (fun acc b => (acc * 131 + b) % 2 ^ 32) 5381
  [d % 256, d / 2 ^ 8 % 256, d / 2 ^ 16 % 256, d / 2 ^ 24 % 256]

/-- The base-58 alphabet used by the address text format. -/
def b58Alphabet : List Char :=
  "123456789ABCDEFGHJKLMNPQRSTUVWXYZabcdefghijkmnopqrstuvwxyz".toList

/-- Character of one base-58 digit. -/
def digitToChar (d : Nat) : Char := b58Alphabet.getD d ' '

/-- Position of a character in a character list. -/
def indexOfChar : List Char → Char → Option Nat
  | [], _ => none
  | a :: as, c => if a = c then some 0 else (indexOfChar as c).map (· + 1)

/-- Base-58 digit of a character, failing on characters outside the alphabet. -/
def charToDigit (c : Char) : Option Nat := indexOfChar b58Alphabet c

/-- Digits of a base-58 text, failing on characters outside the alphabet. -/
def charsToDigits : List Char → Option (List Nat)
  | [] => some []
  | c :: cs =>
    match charToDigit c, charsToDigits cs with
    | some d, some ds => some (d :: ds)
    | _, _ => none

/-- A 20-byte script hash, as `ontology/common/address.py` stores it. -/
structure Address where
  data : List Nat
  deriving DecidableEq

/-- Raw bytes of an address (`Address.to_bytes` in the repository). -/
def Address.to_bytes (a : Address) : List Nat := a.data

/-- Version byte prefixed to the 20-byte script hash before base-58 encoding;
its value 23 (0x17) is cross-checked below against a base58 address recorded
in the repository. -/
def b58AddressVersion : Nat := 23

/-- Modelled from the spec: `Address.b58encode` — prepend the version byte,
append the 4-byte checksum of the versioned payload, and write the 25 bytes in
base 58 (spec sections 4.1 and 6).  The digit fuel `8 * length` is sufficient
because a `k`-byte value has at most `8 k` base-58 digits. -/
def Address.b58encode (a : Address) : List Char :=
  let full := b58AddressVersion :: a.data ++ hash256Checksum (b58AddressVersion :: a.data)
  ((toDigitsAux 58 (8 * full.length) (bytesToNat full)).reverse).map digitToChar

/-- Numeric value of a base-58 text. -/
def b58decodeNat (cs : List Char) : Option Nat :=
  (charsToDigits cs).map (fun ds => ofDigitsLE 58 ds.reverse)

/-- Modelled from the spec: `Address.b58decode` — read the base-58 number back
into bytes, require exactly version(1) + payload(20) + checksum(4) = 25 bytes,
verify the checksum, and return the 20 payload bytes; any failure is a
FormatError (spec sections 4.1 and 6).  A text of `k` characters denotes a
value below `58 ^ k < 256 ^ k`, so `k` digit fuel suffices. -/
def Address.b58decode (cs : List Char) : Except SdkError Address :=
  match b58decodeNat cs with
  | none => .error .formatError
  | some n =>
    let full := (toDigitsAux 256 cs.length n).reverse
    if full.length = 25 then
      if full.drop 21 = hash256Checksum (full.take 21) then .ok ⟨(full.drop 1).take 20⟩
      else .error .formatError
    else .error .formatError

/-- The 20 bytes of base58 address AKFMnJT1u5pyPhzGRuauD1KkyUvqjQsmGs, the
transfer destination used by the repository's example in
`ontology/rpc/rpc_client.py`. -/
def demoToAddress : List Nat :=
  [0x26, 0x1b, 0x18, 0x06, 0x9e, 0x80, 0xf3, 0x51, 0xa2, 0x02,
   0xcd, 0x1d, 0x23, 0x06, 0x41, 0xdf, 0xa4, 0x50, 0xb8, 0x3b]

/-! ## TransactionCodec (claims C4, C5, C8)

`ontology/core/transaction.py` and `ontology/vm/neo_vm.py` are not among the
available sources; only their caller `ontology/rpc/rpc_client.py` is.  The
payload builder and the serializer are modelled from the spec, section 4.4,
with the fixed opcode constants of the push-style sequence taken from the
NeoVM calling convention the spec refers to; the model is cross-checked
byte-for-byte against the golden output hex recorded in
`ontology/rpc/rpc_client.py`. -/

/-- NeoVM data push: one length byte then the bytes.  Valid for payloads
below 0x4c bytes, which covers every push made by the transfer scenario
(20-byte addresses, an 8-byte method name, a 22-byte syscall name). -/
def pushData (bs : List Nat) : List Nat := bs.length :: bs

/-- Modelled from the spec: push of a non-negative integer — 0 is the single
opcode 0x00, 1 to 16 are the single opcodes 0x51 to 0x60, anything larger a
minimal-length little-endian data push (spec section 4.4). -/
def pushInt (n : Nat) : List Nat :=
  if n = 0 then [0x00]
  else if n ≤ 16 then [0x50 + n]
  else pushData (toDigitsAux 256 n n)

/-- Modelled from the spec: the struct-building byte sequence for the single
transfer state argument — open a struct (0x00 0xc6 0x6b), append the from
address, the to address and the amount (0x6a 0x7c 0xc8 after each push), then
close and pack (0x6c 0x51 0xc1). -/
def buildTransferStateCode (fromAddr toAddr : List Nat) (amount : Nat) : List Nat :=
  [0x00, 0xc6, 0x6b] ++ pushData fromAddr ++ [0x6a, 0x7c, 0xc8]
    ++ pushData toAddr ++ [0x6a, 0x7c, 0xc8] ++ pushInt amount ++ [0x6a, 0x7c, 0xc8]
    ++ [0x6c, 0x51, 0xc1]

/-- Modelled from the spec: `build_neo_vm.build_native_invoke_code` — the
argument byte sequence, the pushed method name, the pushed 20-byte contract
address, the pushed version byte, then the fixed syscall sequence 0x68 with
the name Ontology.Native.Invoke (spec section 4.4). -/
def build_native_invoke_code (contractAddress : List Nat) (version : Nat) (method : String)
    (stateCode : List Nat) : List Nat :=
  stateCode ++ pushData (strBytes method) ++ pushData contractAddress ++ pushInt version
    ++ [0x68] ++ pushData (strBytes "Ontology.Native.Invoke")

/-- A signature group as `ontology/core/transaction.py` constructs it:
`Sig([public_key], M, [sig_data])` in `sign_to_transaction`. -/
structure Sig where
  public_keys : List (List Nat)
  M : Nat
  sig_data : List (List Nat)
  deriving DecidableEq

/-- The transaction record of `ontology/core/transaction.py`, as constructed
by `new_transfer_transaction` (version, type 0xd1, nonce, gas price, gas
limit, payer, invoke payload, attributes, signature groups). -/
structure Transaction where
  version : Nat
  txType : Nat
  nonce : Nat
  gasPrice : Nat
  gasLimit : Nat
  payer : List Nat
  payload : List Nat
  attributes : List Nat
  sigs : List Sig
  deriving DecidableEq

/-- Variable-length integer encoding used for length prefixes. -/
def varIntLen (n : Nat) : List Nat :=
  if n < 0xfd then [n]
  else if n < 2 ^ 16 then 0xfd :: u16LE n
  else if n < 2 ^ 32 then 0xfe :: u32LE n
  else 0xff :: u64LE n

/-- Modelled from the spec: `Transaction.serialize_unsigned` — fixed-order
field concatenation: version byte, type byte, 4-byte nonce, 8-byte gas price,
8-byte gas limit (all little-endian), 20-byte payer (all-zero if unset), the
invoke payload length-prefixed, then the attribute section (spec section
4.4).  The attribute count is written as two bytes, the width fixed by the
golden serialization recorded in `ontology/rpc/rpc_client.py`. -/
def serialize_unsigned (tx : Transaction) : List Nat :=
  [tx.version % 256, tx.txType % 256] ++ u32LE tx.nonce ++ u64LE tx.gasPrice
    ++ u64LE tx.gasLimit ++ (if tx.payer.isEmpty then List.replicate 20 0 else tx.payer)
    ++ varIntLen tx.payload.length ++ tx.payload ++ u16LE tx.attributes.length ++ tx.attributes

/-- Modelled from the spec: serialization of one signature group —
public-key count, each public key length-prefixed, threshold M, signature
count, each signature length-prefixed (spec section 4.4). -/
def serializeSigGroup (s : Sig) : List Nat :=
  varIntLen s.public_keys.length
    ++ (s.public_keys.map (fun pk => varIntLen pk.length ++ pk)).foldr (· ++ ·) []
    ++ varIntLen s.M ++ varIntLen s.sig_data.length
    ++ (s.sig_data.map (fun sv => varIntLen sv.length ++ sv)).foldr (· ++ ·) []

/-- Modelled from the spec: `Transaction.serialize` — the unsigned bytes
followed by the signature-group count and each group (spec section 4.4). -/
def serialize (tx : Transaction) : List Nat :=
  serialize_unsigned tx ++ varIntLen tx.sigs.length
    ++ (tx.sigs.map serializeSigGroup).foldr (· ++ ·) []

/-- Modelled from the spec: the contract address of the known native asset
"ont" that `util.get_asset_address` resolves for the golden scenario —
20 bytes, recorded in the repository's golden transfer payload. -/
def get_asset_address_ont : List Nat :=
  [0, 0, 0, 0, 0, 0, 0, 0, 0, 0, 0, 0, 0, 0, 0, 0, 0, 0, 0, 1]

/-- `RpcClient.new_transfer_transaction` (rpc_client.py lines 147-153): a
single-state transfer invocation at version 0, type 0xd1, with the timestamp
field hardcoded to 1 in the source, an empty payer, empty attributes and no
signatures. -/
def new_transfer_transaction (gasPrice gasLimit : Nat)
    (contractAddress fromAddr toAddr : List Nat) (amount : Nat) : Transaction :=
  { version := 0, txType := 0xd1, nonce := 1, gasPrice := gasPrice, gasLimit := gasLimit,
    payer := [],
    payload := build_native_invoke_code contractAddress 0 "transfer"
      (buildTransferStateCode fromAddr toAddr amount),
    attributes := [], sigs := [] }

/-- `RpcClient.sign_to_transaction` (rpc_client.py lines 155-162): set the
payer to the signer's address and attach the single signature group
`Sig([public_key], 1, [sig_data])`. -/
def sign_to_transaction (tx : Transaction) (signerAddress pubKey sigValue : List Nat) :
    Transaction :=
  { tx with payer := signerAddress, sigs := [⟨[pubKey], 1, [sigValue]⟩] }

/-- The 20-byte address of the example signer account in
`ontology/rpc/rpc_client.py`, as recorded in the golden vector (payer field
and transfer source). -/
def demoFromAddress : List Nat :=
  [0x47, 0x56, 0xc9, 0xdd, 0x82, 0x9b, 0x21, 0x42, 0x88, 0x3a,
   0xdb, 0xe1, 0xae, 0x4f, 0x86, 0x89, 0xa1, 0xf6, 0x73, 0xe9]

/-- The golden unsigned-serialization hex recorded in
`ontology/rpc/rpc_client.py` (line 189 and the output comment at line 196). -/
def goldenTransferHex : String :=
  "00d101000000f401000000000000204e0000000000004756c9dd829b2142883adbe1ae4f8689a1f673e97100c66b144756c9dd829b2142883adbe1ae4f8689a1f673e96a7cc814261b18069e80f351a202cd1d230641dfa450b83b6a7cc8516a7cc86c51c1087472616e736665721400000000000000000000000000000000000000010068164f6e746f6c6f67792e4e61746976652e496e766f6b650000"

/-- The golden transfer transaction after signing, as the repository's
`transfer` flow builds it before printing the golden hex. -/
def demoSignedTransferTx : Transaction :=
  sign_to_transaction
    (new_transfer_transaction 500 20000 get_asset_address_ont demoFromAddress demoToAddress 1)
    demoFromAddress [] []

/-! ## RPC request construction (claim C5)

`ontology/rpc/define.py` is not among the available sources; the JSON-RPC
method-name constants it defines are modelled as an enumeration, following the
spec's RPC surface (section 6), which lists the fetch-raw-transaction-by-hash
method and the submit-raw-transaction method as distinct methods.  The request
builders below mirror `ontology/rpc/rpc_client.py` exactly, constant names
included. -/

/-- Modelled from the spec: the distinct JSON-RPC method names of the RPC
surface (spec section 6), one per RPC_* constant referenced by
`ontology/rpc/rpc_client.py`. -/
inductive RpcMethodName
  | rpcGetVersion
  | rpcGetBlock
  | rpcGetBlockCount
  | rpcGetCurrentBlockHash
  | rpcGetBlockHash
  | rpcGetBalance
  | rpcGetStorage
  | rpcGetSmartContractEvent
  | rpcGetTransaction
  | rpcGetSmartContract
  | rpcGetGenerateBlockTime
  | rpcGetMerkleProof
  | rpcSendTransaction
  deriving DecidableEq

/-- A positional JSON-RPC parameter: a string or a number. -/
inductive RpcParam
  | strParam (s : List Char)
  | natParam (n : Nat)
  deriving DecidableEq

/-- The JSON-RPC request record filled in by
`RpcClient.set_json_rpc_version`. -/
structure JsonRpcRequestData where
  jsonrpc : String
  id : String
  method : RpcMethodName
  params : List RpcParam
  deriving DecidableEq

/-- `RpcClient.set_json_rpc_version` (rpc_client.py lines 45-50). -/
def set_json_rpc_version (method : RpcMethodName) (params : List RpcParam) :
    JsonRpcRequestData :=
  { jsonrpc := "2.0", id := "1", method := method, params := params }

/-- `RpcClient.get_raw_transaction` (rpc_client.py lines 115-119): fetch a raw
transaction by hash with method RPC_GET_TRANSACTION. -/
def get_raw_transaction (txHash : List Char) : JsonRpcRequestData :=
  set_json_rpc_version .rpcGetTransaction [.strParam txHash, .natParam 1]

/-- `RpcClient.send_raw_transaction` (rpc_client.py lines 168-174): serialize
the signed transaction, hex-encode it, and build the request.  The source
passes RPC_GET_TRANSACTION — the same constant `get_raw_transaction` uses —
not a submit-raw-transaction method. -/
def send_raw_transaction (tx : Transaction) : JsonRpcRequestData :=
  set_json_rpc_version .rpcGetTransaction
    [.strParam (bytesToHex (serialize tx)), .natParam 1]

/-! ## Wallet scrypt record loading (claim C6) -/

/-- The scrypt cost-parameter record, with the field names
`WalletManager.load_file` reads (`n`, `r`, `p`, `dk_len`). -/
structure Scrypt where
  n : Nat
  r : Nat
  p : Nat
  dk_len : Nat
  deriving DecidableEq

/-- Python `dict.get(key, default)` over a string-keyed record. -/
def dictGetNat (d : List (String × Nat)) (key : String) (dflt : Nat) : Nat :=
  (d.lookup key).getD dflt

/-- The scrypt construction of `WalletManager.load_file`
(wallet_manager.py lines 63-65): each cost parameter is read from the
persisted scrypt record by name, with a default used when the field is
omitted. -/
def load_file_scrypt (scryptRecord : List (String × Nat)) : Scrypt :=
  { n := dictGetNat scryptRecord "n" 16384, r := dictGetNat scryptRecord "r" 8,
    p := dictGetNat scryptRecord "p" 8, dk_len := dictGetNat scryptRecord "dk_len" 64 }

/-! ## Signature-group invariant (claim C8) -/

/-- The spec's Signature invariant (section 3): `1 <= M <= N` public keys and
no more signature values than public keys. -/
def sigGroupValid (s : Sig) : Prop :=
  1 ≤ s.M ∧ s.M ≤ s.public_keys.length ∧ s.sig_data.length ≤ s.public_keys.length

/-- Modelled from the spec: `assemble` of the MultiSigAssembler (spec section
4.5) — set the payer, attach the groups in order, and fail with the
invalid-signature-group error unless every group satisfies the invariant. -/
def assemble (tx : Transaction) (payerAddress : List Nat) (groups : List Sig) :
    Except SdkError Transaction :=
  if groups.all (fun g => decide (1 ≤ g.M) && decide (g.M ≤ g.public_keys.length)
      && decide (g.sig_data.length ≤ g.public_keys.length))
  then .ok { tx with payer := payerAddress, sigs := groups }
  else .error .invalidSignatureGroup

/-- A transaction with every field empty, used for concrete instantiation. -/
def emptyTransaction : Transaction :=
  { version := 0, txType := 0, nonce := 0, gasPrice := 0, gasLimit := 0, payer := [],
    payload := [], attributes := [], sigs := [] }

/-! ## Control records (claim C9) -/

/-- A Python value, as far as the repository's isinstance checks observe it. -/
inductive PyValue
  | pyStr (s : String)
  | pyInt (n : Int)
  | pyNone
  deriving DecidableEq

/-- Python `isinstance(v, str)`. -/
def PyValue.isStr : PyValue → Bool
  | .pyStr _ => true
  | _ => false

/-- The `Control` record of `ontology/wallet/control.py` — the fields its
`__init__` stores (the `parameters` curve record is kept as its name
string). -/
structure Control where
  address : String
  algorithm : String
  enc_alg : String
  hashScheme : String
  kid : String
  key : String
  parameters : String
  salt : String
  public_key : String
  deriving DecidableEq

/-- The `Control.b58_address` property getter (control.py lines 46-48):
returns the privately stored address. -/
def Control.b58_address (c : Control) : String := c.address

/-- The `Control.b58_address` property setter (control.py lines 50-53): it
raises unless the value is a `str`, and otherwise stores nothing — the body
contains only the isinstance check. -/
def Control.set_b58_address (c : Control) (v : PyValue) : Except SdkError Control :=
  if v.isStr then .ok c else .error .requireStrParams

/-! ## WalletManager state (claim C10)

`WalletData`, `Identity` and `AccountData` live outside the available sources;
their fields are taken from how `ontology/wallet/wallet_manager.py` uses them.
The mutation of `wallet_in_mem` and `wallet_file` follows the source lines
quoted on each operation; `copy.deepcopy` of the source is value copying in
this embedding. -/

/-- The `AccountData` record as `WalletManager.__create_account` fills it. -/
structure AccountData where
  key : String
  b58_address : String
  label : String
  salt : String
  public_key : String
  is_default : Bool
  deriving DecidableEq

/-- The `Identity` record as `WalletManager.__create_account` fills it. -/
structure Identity where
  ont_id : String
  label : String
  is_default : Bool
  controls : List Control
  deriving DecidableEq

/-- The wallet record persisted by the wallet store. -/
structure WalletData where
  name : String
  version : String
  create_time : String
  default_ont_id : String
  default_account_address : String
  scrypt : Scrypt
  identities : List Identity
  accounts : List AccountData
  deriving DecidableEq

/-- The two wallet copies a `WalletManager` holds. -/
structure WalletManagerState where
  wallet_file : WalletData
  wallet_in_mem : WalletData
  wallet_path : String
  deriving DecidableEq

/-- `WalletManager.open_wallet` (wallet_manager.py lines 36-42): store the
loaded wallet in `wallet_file` and a deep copy of it in `wallet_in_mem`. -/
def open_wallet (s : WalletManagerState) (path : String) (loaded : WalletData) :
    WalletManagerState :=
  { s with wallet_path := path, wallet_file := loaded, wallet_in_mem := loaded }

/-- `WalletManager.reset_wallet` (wallet_manager.py lines 87-89): replace
`wallet_in_mem` with a deep copy of `wallet_file`. -/
def reset_wallet (s : WalletManagerState) : WalletManagerState :=
  { s with wallet_in_mem := s.wallet_file }

/-- `WalletManager.write_wallet` (wallet_manager.py lines 82-85): persist and
then reassign `wallet_file` from `wallet_in_mem`. -/
def write_wallet (s : WalletManagerState) : WalletManagerState :=
  { s with wallet_file := s.wallet_in_mem }

/-- The account branch of `WalletManager.__create_account`
(wallet_manager.py lines 175-185): reject a duplicate address, make the first
account the default one, and append the account — all on `wallet_in_mem`
only. -/
def create_account_step (s : WalletManagerState) (acct : AccountData) :
    Except SdkError WalletManagerState :=
  if s.wallet_in_mem.accounts.any (fun a => a.b58_address == acct.b58_address) then
    .error .accountExists
  else
    let isFirst := s.wallet_in_mem.accounts.isEmpty
    let acct1 := if isFirst then { acct with is_default := true } else acct
    let mem := s.wallet_in_mem
    .ok { s with
      wallet_in_mem :=
        { mem with
          accounts := mem.accounts ++ [acct1],
          default_account_address :=
            if isFirst then acct1.b58_address else mem.default_account_address } }

end OntSdk

namespace OntSdk

/-! ## Digit machinery lemmas -/

theorem toDigitsAux_eq_digits (b : Nat) (hb : 1 < b) :
    ∀ fuel n, n < b ^ fuel → toDigitsAux b fuel n = Nat.digits b n := by
  intro fuel
  induction fuel with
  | zero =>
    intro n hn
    simp only [pow_zero, Nat.lt_one_iff] at hn
    subst hn; simp [toDigitsAux]
  | succ f ih =>
    intro n hn
    by_cases h0 : n = 0
    · subst h0; simp [toDigitsAux]
    · rw [toDigitsAux, if_neg h0, Nat.digits_def' hb (Nat.pos_of_ne_zero h0), ih]
      rw [Nat.div_lt_iff_lt_mul (by omega)]
      calc n < b ^ (f + 1) := hn
        _ = b ^ f * b := by ring

theorem ofDigitsLE_eq_ofDigits (b : Nat) (ds : List Nat) :
    ofDigitsLE b ds = Nat.ofDigits b ds := by
  induction ds with
  | nil => simp [ofDigitsLE]
  | cons d ds ih => simp [ofDigitsLE, Nat.ofDigits_cons, ih]

theorem charToDigit_digitToChar : ∀ d < 58, charToDigit (digitToChar d) = some d := by
  decide

theorem charsToDigits_map_digitToChar (ds : List Nat) (h : ∀ d ∈ ds, d < 58) :
    charsToDigits (ds.map digitToChar) = some ds := by
  induction ds with
  | nil => simp [charsToDigits]
  | cons d ds ih =>
    simp only [List.map_cons, charsToDigits]
    rw [charToDigit_digitToChar d (h d (by simp)), ih (fun x hx => h x (by simp [hx]))]

theorem hash256Checksum_lt (bs : List Nat) : ∀ d ∈ hash256Checksum bs, d < 256 := by
  intro d hd
  simp only [hash256Checksum, List.mem_cons, List.not_mem_nil, or_false] at hd
  rcases hd with rfl | rfl | rfl | rfl <;> exact Nat.mod_lt _ (by norm_num)

theorem hash256Checksum_length (bs : List Nat) : (hash256Checksum bs).length = 4 := rfl

/-! ## KeyProtector theorems (claims C1, C2) -/

/-- C1: decrypting the GCM-encrypted private key produced by wrapping a raw key
`k` under password `p`, salt and base58 address `a` (as `create_account_info`
does via `export_gcm_encrypted_private_key`) with the same password, salt and
address (as `import_account` does via `get_gcm_decoded_private_key`) returns
the original key `k`. -/
theorem gcm_wrap_unwrap_roundtrip (k p salt a : String) (n : Nat) :
    get_gcm_decoded_private_key (export_gcm_encrypted_private_key k p salt n a) p a salt n =
      .ok k := by
  simp [get_gcm_decoded_private_key, export_gcm_encrypted_private_key, gcmEncrypt, gcmDecrypt]

/-- C2: unwrapping with a wrong password, a wrong address, or a corrupted
ciphertext fails with an authentication error and never returns key bytes
(`get_gcm_decoded_private_key` as called by `get_account_by_b58_address`). -/
theorem gcm_unwrap_auth_failure (k p p2 salt a a2 x : String) (n : Nat) :
    (p2 ≠ p →
      get_gcm_decoded_private_key (export_gcm_encrypted_private_key k p salt n a) p2 a salt n =
        .error .authenticationFailed) ∧
    (a2 ≠ a →
      get_gcm_decoded_private_key (export_gcm_encrypted_private_key k p salt n a) p a2 salt n =
        .error .authenticationFailed) ∧
    (x ≠ k →
      get_gcm_decoded_private_key
        { export_gcm_encrypted_private_key k p salt n a with cipherPayload := x }
        p a salt n = .error .authenticationFailed) := by
  refine ⟨fun hp => ?_, fun ha => ?_, fun hx => ?_⟩ <;>
    simp [get_gcm_decoded_private_key, export_gcm_encrypted_private_key, gcmEncrypt,
      gcmDecrypt, scryptDerive, Prod.ext_iff] <;>
    intro h <;> simp_all

/-- Witness for C2 at concrete inputs: wrapping under password "pwd" for
address "addr" and unwrapping with password "bad", address "evil", or a
tampered payload all fail authentication. -/
theorem gcm_unwrap_auth_failure_witness :
    ("bad" ≠ "pwd" →
      get_gcm_decoded_private_key
        (export_gcm_encrypted_private_key "key" "pwd" "salt" 16384 "addr") "bad" "addr" "salt"
        16384 = .error .authenticationFailed) ∧
    ("evil" ≠ "addr" →
      get_gcm_decoded_private_key
        (export_gcm_encrypted_private_key "key" "pwd" "salt" 16384 "addr") "pwd" "evil" "salt"
        16384 = .error .authenticationFailed) ∧
    ("tampered" ≠ "key" →
      get_gcm_decoded_private_key
        { export_gcm_encrypted_private_key "key" "pwd" "salt" 16384 "addr" with
            cipherPayload := "tampered" }
        "pwd" "addr" "salt" 16384 = .error .authenticationFailed) :=
  gcm_unwrap_auth_failure "key" "pwd" "bad" "salt" "addr" "evil" "tampered" 16384

/-! ## AddressCodec theorems (claim C3) -/

theorem b58_roundtrip_aux (h : List Nat) (hlen : h.length = 20)
    (hbytes : ∀ x ∈ h, x < 256) :
    Address.b58decode (Address.b58encode ⟨h⟩) = .ok ⟨h⟩ := by
  have h58 : (1 : Nat) < 58 := by norm_num
  have h256 : (1 : Nat) < 256 := by norm_num
  set ck := hash256Checksum (b58AddressVersion :: h) with hck
  set full := b58AddressVersion :: h ++ ck with hfull
  have hck_len : ck.length = 4 := hash256Checksum_length _
  have hfull_len : full.length = 25 := by
    simp [hfull, hlen, hck_len]
  have hfull_lt : ∀ x ∈ full, x < 256 := by
    intro x hx
    rcases List.mem_append.mp hx with hx | hx
    · rcases List.mem_cons.mp hx with rfl | hx
      · norm_num [b58AddressVersion]
      · exact hbytes x hx
    · exact hash256Checksum_lt _ x (hck ▸ hx)
  set n := bytesToNat full with hn
  have hn_lt : n < 256 ^ 25 := by
    rw [hn]
    unfold bytesToNat
    rw [ofDigitsLE_eq_ofDigits]
    have := Nat.ofDigits_lt_base_pow_length (l := full.reverse) h256
      (by intro x hx; exact hfull_lt x (List.mem_reverse.mp hx))
    simpa [hfull_len] using this
  have henc : Address.b58encode ⟨h⟩ = ((Nat.digits 58 n).reverse).map digitToChar := by
    simp only [Address.b58encode]
    rw [toDigitsAux_eq_digits 58 h58]
    have hle : (256 : Nat) ^ 25 ≤ 58 ^ (8 * 25) := by
      have h1 : (256 : Nat) ^ 25 = 2 ^ 200 := by norm_num
      have h2 : (2 : Nat) ^ 200 ≤ 58 ^ 200 := Nat.pow_le_pow_left (by norm_num) 200
      omega
    calc n < 256 ^ 25 := hn_lt
      _ ≤ 58 ^ (8 * 25) := hle
      _ = 58 ^ (8 * (b58AddressVersion :: (h ++ ck)).length) := by
          have : (b58AddressVersion :: (h ++ ck)).length = 25 := hfull_len
          rw [this]
  have hds_lt : ∀ d ∈ (Nat.digits 58 n).reverse, d < 58 := by
    intro d hd
    exact Nat.digits_lt_base h58 (List.mem_reverse.mp hd)
  have hdigits : charsToDigits (((Nat.digits 58 n).reverse).map digitToChar) =
      some (Nat.digits 58 n).reverse :=
    charsToDigits_map_digitToChar _ hds_lt
  have hdecnat : b58decodeNat (Address.b58encode ⟨h⟩) = some n := by
    rw [henc]
    unfold b58decodeNat
    rw [hdigits]
    simp [ofDigitsLE_eq_ofDigits, Nat.ofDigits_digits]
  have hlen_enc : (Address.b58encode ⟨h⟩).length = (Nat.digits 58 n).length := by
    rw [henc]; simp
  have hfuel2 : n < 256 ^ (Address.b58encode ⟨h⟩).length := by
    rw [hlen_enc]
    calc n < 58 ^ (Nat.digits 58 n).length := Nat.lt_base_pow_length_digits h58
      _ ≤ 256 ^ (Nat.digits 58 n).length := Nat.pow_le_pow_left (by norm_num) _
  have hbytes_back : toDigitsAux 256 (Address.b58encode ⟨h⟩).length n = full.reverse := by
    rw [toDigitsAux_eq_digits 256 h256 _ _ hfuel2, hn]
    unfold bytesToNat
    rw [ofDigitsLE_eq_ofDigits]
    refine Nat.digits_ofDigits 256 h256 full.reverse
      (by intro x hx; exact hfull_lt x (List.mem_reverse.mp hx)) ?_
    intro hne
    have h1 := List.getLast?_eq_getLast full.reverse hne
    rw [List.getLast?_reverse] at h1
    have h2 : full.head? = some b58AddressVersion := by rw [hfull]; rfl
    rw [h2] at h1
    rw [← Option.some_inj.mp h1]
    norm_num [b58AddressVersion]
  have hcons : full = b58AddressVersion :: (h ++ ck) := by
    rw [hfull, List.cons_append]
  have htake : full.take 21 = b58AddressVersion :: h := by
    rw [hcons, show (21 : Nat) = h.length + 1 by omega, List.take_succ_cons, List.take_left]
  have hdrop : full.drop 21 = ck := by
    rw [hcons, show (21 : Nat) = h.length + 1 by omega, List.drop_succ_cons, List.drop_left]
  have hpayload : (full.drop 1).take 20 = h := by
    rw [hcons, List.drop_one, List.tail_cons, show (20 : Nat) = h.length from hlen.symm,
      List.take_left]
  unfold Address.b58decode
  rw [hdecnat]
  simp only [hbytes_back, List.reverse_reverse]
  rw [if_pos hfull_len, if_pos (by rw [htake, hdrop, hck]), hpayload]

/-- C3: base58-encoding a 20-byte script hash and decoding the text returns
exactly the original bytes; decoding fails with a FormatError on a character
outside the alphabet, on a decoded length other than 25 = version(1) +
payload(20) + checksum(4) bytes, or on a checksum mismatch. -/
theorem address_b58encode_decode :
    (∀ h : List Nat, h.length = 20 → (∀ x ∈ h, x < 256) →
      Address.b58decode (Address.b58encode ⟨h⟩) = .ok ⟨h⟩) ∧
    (∀ cs, b58decodeNat cs = none → Address.b58decode cs = .error .formatError) ∧
    (∀ cs n, b58decodeNat cs = some n → (toDigitsAux 256 cs.length n).length ≠ 25 →
      Address.b58decode cs = .error .formatError) ∧
    (∀ cs n, b58decodeNat cs = some n →
      ((toDigitsAux 256 cs.length n).reverse).drop 21 ≠
        hash256Checksum (((toDigitsAux 256 cs.length n).reverse).take 21) →
      Address.b58decode cs = .error .formatError) := by
  refine ⟨b58_roundtrip_aux, ?_, ?_, ?_⟩
  · intro cs hnone
    unfold Address.b58decode
    rw [hnone]
  · intro cs n hsome hlen
    unfold Address.b58decode
    rw [hsome]
    simp only []
    rw [if_neg (by simpa using hlen)]
  · intro cs n hsome hchk
    unfold Address.b58decode
    rw [hsome]
    simp only []
    by_cases hl : ((toDigitsAux 256 cs.length n).reverse).length = 25
    · rw [if_pos hl, if_neg hchk]
    · rw [if_neg hl]

/-- Witness for C3 at concrete inputs: the 20-byte script hash of the
repository's example destination address round-trips, and a text containing
the character 0 (outside the base-58 alphabet) fails with a FormatError. -/
theorem address_b58encode_decode_witness :
    Address.b58decode (Address.b58encode ⟨demoToAddress⟩) = .ok ⟨demoToAddress⟩ ∧
    Address.b58decode ['0'] = .error .formatError :=
  ⟨address_b58encode_decode.1 demoToAddress (by decide) (by decide),
   address_b58encode_decode.2.1 ['0'] (by decide)⟩

/-- Cross-check of the base-58 digit model and the version byte against repo
data: the 25-byte expansion of the repository's base58 address
AKFMnJT1u5pyPhzGRuauD1KkyUvqjQsmGs starts with version byte 23 and carries the
20 payload bytes the repository's golden transfer transaction embeds for the
destination. -/
theorem b58_known_address_payload :
    (b58decodeNat "AKFMnJT1u5pyPhzGRuauD1KkyUvqjQsmGs".toList).map
        (fun n =>
          ((toDigitsAux 256 "AKFMnJT1u5pyPhzGRuauD1KkyUvqjQsmGs".toList.length n).reverse).take
            21) =
      some (b58AddressVersion :: demoToAddress) := by
  decide

/-! ## TransactionCodec theorems (claim C4) -/

/-- C4: building the transfer transaction for the known native asset with
method transfer, the single state argument from/to/amount=1, gas price 500,
gas limit 20000, version 0, type 0xd1 (as `new_transfer_transaction` and
`build_native_invoke_code` do), setting the payer to the signer's address (as
`sign_to_transaction` does in the `transfer` flow that prints the golden
output), and serializing it unsigned reproduces the recorded golden hex
string byte for byte — including the timestamp field, which the source
hardcodes to 1, so nothing is excluded from the comparison. -/
theorem transfer_golden_vector (pk sd : List Nat) :
    bytesToHex (serialize_unsigned (sign_to_transaction
        (new_transfer_transaction 500 20000 get_asset_address_ont demoFromAddress demoToAddress
          1)
        demoFromAddress pk sd)) = goldenTransferHex.toList := by
  have h : serialize_unsigned (sign_to_transaction
      (new_transfer_transaction 500 20000 get_asset_address_ont demoFromAddress demoToAddress 1)
      demoFromAddress pk sd) =
      serialize_unsigned (sign_to_transaction
        (new_transfer_transaction 500 20000 get_asset_address_ont demoFromAddress demoToAddress
          1)
        demoFromAddress [] []) := rfl
  rw [h]
  set_option maxRecDepth 10000 in decide

/-! ## RPC request theorems (claim C5) -/

/-- C5: `send_raw_transaction` hex-encodes the serialized transaction in
lowercase and passes it as the positional parameter, but the method name it
issues is RPC_GET_TRANSACTION — the very method `get_raw_transaction` uses to
fetch a transaction by hash — not the distinct submit-raw-transaction method
the claim requires.  Evaluated at the golden signed transfer transaction. -/
theorem send_raw_transaction_method_collision :
    (send_raw_transaction demoSignedTransferTx).method = (get_raw_transaction []).method ∧
    (send_raw_transaction demoSignedTransferTx).method = RpcMethodName.rpcGetTransaction ∧
    RpcMethodName.rpcGetTransaction ≠ RpcMethodName.rpcSendTransaction ∧
    (send_raw_transaction demoSignedTransferTx).params =
      [.strParam (bytesToHex (serialize demoSignedTransferTx)), .natParam 1] :=
  ⟨rfl, rfl, by decide, rfl⟩

/-! ## Wallet scrypt record theorems (claim C6) -/

/-- C6: when the persisted scrypt record omits a cost-parameter field,
`load_file` uses the defaults n=16384, r=8, p=8, derived-key length 64; when a
field is present it is read back under its persisted name (`n`, `r`, `p`,
`dk_len`), so the parameters that reverse the wrap are recovered. -/
theorem load_file_scrypt_defaults :
    (∀ d, d.lookup "n" = none → (load_file_scrypt d).n = 16384) ∧
    (∀ d, d.lookup "r" = none → (load_file_scrypt d).r = 8) ∧
    (∀ d, d.lookup "p" = none → (load_file_scrypt d).p = 8) ∧
    (∀ d, d.lookup "dk_len" = none → (load_file_scrypt d).dk_len = 64) ∧
    (∀ d v, d.lookup "n" = some v → (load_file_scrypt d).n = v) ∧
    (∀ d v, d.lookup "r" = some v → (load_file_scrypt d).r = v) ∧
    (∀ d v, d.lookup "p" = some v → (load_file_scrypt d).p = v) ∧
    (∀ d v, d.lookup "dk_len" = some v → (load_file_scrypt d).dk_len = v) := by
  refine ⟨?_, ?_, ?_, ?_, ?_, ?_, ?_, ?_⟩ <;>
    intro d <;>
    first
      | (intro hd; simp [load_file_scrypt, dictGetNat, hd])
      | (intro v hd; simp [load_file_scrypt, dictGetNat, hd])

/-- Witness for C6: the empty scrypt record yields the default parameters,
and a record persisting n=1024 is read back as 1024. -/
theorem load_file_scrypt_defaults_witness :
    (load_file_scrypt []).n = 16384 ∧ (load_file_scrypt []).r = 8 ∧
    (load_file_scrypt []).p = 8 ∧ (load_file_scrypt []).dk_len = 64 ∧
    (load_file_scrypt [("n", 1024)]).n = 1024 :=
  ⟨load_file_scrypt_defaults.1 [] rfl,
   load_file_scrypt_defaults.2.1 [] rfl,
   load_file_scrypt_defaults.2.2.1 [] rfl,
   load_file_scrypt_defaults.2.2.2.1 [] rfl,
   load_file_scrypt_defaults.2.2.2.2.1 [("n", 1024)] 1024 rfl⟩

/-! ## Signature-group theorems (claim C8) -/

/-- C8: the signature group built by `sign_to_transaction` (one public key,
threshold 1, one signature value) satisfies the Signature invariant
`1 <= M <= N` with no more signature values than public keys — as does every
group of the transaction it returns — and attaching a group violating the
invariant through the assembler fails with the invalid-signature-group
error. -/
theorem sign_to_transaction_group_invariant :
    (∀ tx : Transaction, ∀ addr pk sd : List Nat,
      ∀ g ∈ (sign_to_transaction tx addr pk sd).sigs, sigGroupValid g) ∧
    (∀ tx : Transaction, ∀ addr : List Nat, ∀ groups : List Sig,
      (∃ g ∈ groups, ¬ sigGroupValid g) →
      assemble tx addr groups = .error .invalidSignatureGroup) ∧
    (∀ tx : Transaction, ∀ addr : List Nat, ∀ groups : List Sig,
      (∀ g ∈ groups, sigGroupValid g) →
      assemble tx addr groups = .ok { tx with payer := addr, sigs := groups }) := by
  refine ⟨?_, ?_, ?_⟩
  · intro tx addr pk sd g hg
    simp only [sign_to_transaction, List.mem_singleton] at hg
    subst hg
    exact ⟨le_refl 1, by simp, by simp⟩
  · rintro tx addr groups ⟨g, hg, hbad⟩
    unfold assemble
    rw [if_neg]
    intro hall
    rw [List.all_eq_true] at hall
    have hvg := hall g hg
    simp only [Bool.and_eq_true, decide_eq_true_eq] at hvg
    exact hbad ⟨hvg.1.1, hvg.1.2, hvg.2⟩
  · intro tx addr groups hvalid
    unfold assemble
    rw [if_pos]
    rw [List.all_eq_true]
    intro g hg
    have hvg := hvalid g hg
    simp only [Bool.and_eq_true, decide_eq_true_eq]
    exact ⟨⟨hvg.1, hvg.2.1⟩, hvg.2.2⟩

/-- Witness for C8: the group `sign_to_transaction` attaches to the empty
transaction is valid, and assembling a group with threshold 2 over zero
public keys fails with the invalid-signature-group error. -/
theorem sign_to_transaction_group_invariant_witness :
    sigGroupValid ⟨[[1]], 1, [[2]]⟩ ∧
    assemble emptyTransaction [] [⟨[], 2, []⟩] = .error .invalidSignatureGroup :=
  ⟨sign_to_transaction_group_invariant.1 emptyTransaction [] [1] [2] ⟨[[1]], 1, [[2]]⟩
      (by simp [sign_to_transaction]),
   sign_to_transaction_group_invariant.2.1 emptyTransaction [] [⟨[], 2, []⟩]
      ⟨⟨[], 2, []⟩, by simp, by simp [sigGroupValid]⟩⟩

/-! ## Control record theorems (claim C9) -/

/-- C9: assigning to `Control.b58_address` checks that the value is a str —
raising the SDKException for non-strings — but never stores it: for every
string the assignment succeeds with the object unchanged, so reading
`b58_address` afterwards still returns the address the object was constructed
with. -/
theorem control_b58_address_setter_noop :
    (∀ (c : Control) (s : String), c.set_b58_address (.pyStr s) = .ok c) ∧
    (∀ (c : Control) (s : String),
      (c.set_b58_address (.pyStr s)).map Control.b58_address = .ok c.address) ∧
    (∀ (c : Control) (v : PyValue), v.isStr = false →
      c.set_b58_address v = .error .requireStrParams) := by
  refine ⟨fun c s => rfl, fun c s => rfl, fun c v hv => ?_⟩
  simp [Control.set_b58_address, hv]

/-- Witness for C9: setting a fresh address string on a control constructed
for address addr0 leaves the stored address untouched, and assigning an
integer raises. -/
theorem control_b58_address_setter_noop_witness :
    (Control.set_b58_address ⟨"addr0", "ECDSA", "aes-256-gcm", "sha256", "", "", "P-256", "",
        ""⟩ (.pyStr "addr1")).map Control.b58_address = .ok "addr0" ∧
    Control.set_b58_address ⟨"addr0", "ECDSA", "aes-256-gcm", "sha256", "", "", "P-256", "",
        ""⟩ (.pyInt 7) = .error .requireStrParams :=
  ⟨control_b58_address_setter_noop.2.1 _ "addr1",
   control_b58_address_setter_noop.2.2 _ (.pyInt 7) rfl⟩

/-! ## WalletManager state theorems (claim C10) -/

/-- C10: after `open_wallet` the in-memory wallet is a (value-semantic deep)
copy of the file wallet; `__create_account` mutates only the in-memory copy,
leaving `wallet_file` unchanged whether it succeeds or raises;
`reset_wallet` restores the in-memory wallet to the file wallet; and
`write_wallet` is the only operation that reassigns `wallet_file`, setting it
to the in-memory wallet. -/
theorem wallet_in_mem_deepcopy_frame :
    (∀ (s : WalletManagerState) (path : String) (w : WalletData),
      (open_wallet s path w).wallet_in_mem = (open_wallet s path w).wallet_file ∧
      (open_wallet s path w).wallet_file = w) ∧
    (∀ (s : WalletManagerState) (acct : AccountData),
      (create_account_step s acct).map WalletManagerState.wallet_file =
        (create_account_step s acct).map (fun _ => s.wallet_file)) ∧
    (∀ s : WalletManagerState, (reset_wallet s).wallet_in_mem = s.wallet_file) ∧
    (∀ s : WalletManagerState, (write_wallet s).wallet_file = s.wallet_in_mem) := by
  refine ⟨fun s path w => ⟨rfl, rfl⟩, fun s acct => ?_, fun s => rfl, fun s => rfl⟩
  unfold create_account_step
  by_cases hdup : s.wallet_in_mem.accounts.any (fun a => a.b58_address == acct.b58_address)
  · rw [if_pos hdup]; rfl
  · rw [if_neg hdup]; rfl

end OntSdk
